import Mathlib

/-!
# Verification of the DELTA bot lifecycle engine

Shallow embedding of `server/services/bot-manager.ts` (RADAR static analysis,
workspace materialization with credential substitution, dependency inference,
installer orchestration, and the start/stop/exit lifecycle of a supervised
child process), together with theorems settling the specification claims.

Strings are modelled as `List Char`.  JavaScript regular-expression operations
used by the source are finite alternations of literal strings (character
classes expanded), so they are embedded as executable leftmost scans.
-/

namespace Delta

abbrev Str := List Char

/-- ASCII whitespace recognized by the model of the JS `\s` class and of
`String.prototype.trim` (tab, LF, VT, FF, CR, space).  Unicode whitespace is
not used by any content in these theorems. -/
def isWS (c : Char) : Bool :=
  c = ' ' || c = '\t' || c = '\n' || c = '\r' || c = '\x0b' || c = '\x0c'

/-- Model of `String.prototype.toLowerCase` on the ASCII range. -/
def lcChar (c : Char) : Char :=
  if 'A' ≤ c && c ≤ 'Z' then Char.ofNat (c.toNat + 32) else c

/-- Lower-case a string character by character. -/
def lower (s : Str) : Str := s.map lcChar

/-- `startsWithL p s` holds when `p` is a leading segment of `s`. -/
def startsWithL : Str → Str → Bool
  | [], _ => true
  | _ :: _, [] => false
  | a :: as, b :: bs => a = b && startsWithL as bs

/-- `hasSub p s` : the literal `p` occurs somewhere inside `s`
(the semantics of `String.prototype.includes` and of a literal regex test). -/
def hasSub (p : Str) : Str → Bool
  | [] => startsWithL p []
  | c :: t => startsWithL p (c :: t) || hasSub p t

/-- Model of `String.prototype.trim`. -/
def trimL (s : Str) : Str :=
  ((s.dropWhile isWS).reverse.dropWhile isWS).reverse

/-- Model of `content.split('\n')` : split at every LF, keeping empty pieces. -/
def splitNL : Str → List Str
  | [] => [[]]
  | c :: t =>
    if c = '\n' then [] :: splitNL t
    else
      match splitNL t with
      | [] => [[c]]
      | l :: ls => (c :: l) :: ls

/-- Join pieces with LF (inverse direction of `splitNL`, used for
`Array.from(imports).join('\n')`). -/
def joinNL : List Str → Str
  | [] => []
  | [x] => x
  | x :: xs => x ++ '\n' :: joinNL xs

/-- Decimal rendering of a natural number, used for template literals. -/
def natStr (n : Nat) : Str := (toString n).toList

/-! ## RADAR static analysis (`RADARSystem.analyzeCode`)

The nine `suspiciousPatterns` and four `obfuscationIndicators` from the source
are case-insensitive regexes tested against the lower-cased file content, so
each is embedded as an executable matcher over the lower-cased string:
keyword alternations become substring tests, `\s*` pieces become
whitespace-run skipping, and `.*` pieces become
"later on the same line" (JS `.` does not cross line terminators). -/

/-- A single source file as handed to `analyzeCode` and
`createBotWorkspace`: `{ filename, content }`. -/
structure SrcFile where
  filename : Str
  content : Str
deriving DecidableEq, Repr

/-- Does any of the literal keywords occur in `s`? -/
def anyKeyword (kws : List Str) (s : Str) : Bool :=
  kws.any fun k => hasSub k s

/-- Consume a literal from the head of `s`, or fail. -/
def afterLit (lit : Str) (s : Str) : Option Str :=
  if startsWithL lit s then some (s.drop lit.length) else none

/-- Drop a (possibly empty) run of whitespace: the `\s*` regex piece. -/
def dropWS (s : Str) : Str := s.dropWhile isWS

/-- Does the predicate hold at some position (suffix) of `s`?
This is regex existence: test at every starting offset. -/
def scanAny (p : Str → Bool) : Str → Bool
  | [] => p []
  | c :: t => p (c :: t) || scanAny p t

/-- `while\s*\(\s*true\s*\)` anchored at the head of `s`. -/
def whileTrueAt (s : Str) : Bool :=
  match afterLit ("while".toList) s with
  | none => false
  | some s1 =>
    match afterLit ("(".toList) (dropWS s1) with
    | none => false
    | some s2 =>
      match afterLit ("true".toList) (dropWS s2) with
      | none => false
      | some s3 => (afterLit (")".toList) (dropWS s3)).isSome

/-- `for\s*\(\s*;\s*;\s*\)` anchored at the head of `s`. -/
def forSemiAt (s : Str) : Bool :=
  match afterLit ("for".toList) s with
  | none => false
  | some s1 =>
    match afterLit ("(".toList) (dropWS s1) with
    | none => false
    | some s2 =>
      match afterLit (";".toList) (dropWS s2) with
      | none => false
      | some s3 =>
        match afterLit (";".toList) (dropWS s3) with
        | none => false
        | some s4 => (afterLit (")".toList) (dropWS s4)).isSome

/-- After a match of the first literal, look for the second literal with no
line terminator in between: the `a.*b` regex piece (JS `.` matches neither
LF nor CR). -/
def sepNoNL (b : Str) : Str → Bool
  | [] => false
  | c :: t =>
    if startsWithL b (c :: t) then true
    else if c = '\n' || c = '\r' then false
    else sepNoNL b t

/-- `a.*b` existence anywhere in `s`. -/
def dotStarPair (a b : Str) (s : Str) : Bool :=
  scanAny (fun t =>
    match afterLit a t with
    | some r => sepNoNL b r
    | none => false) s

/-- `eval\s*\(` (resp. `exec\s*\(`) anchored at the head. -/
def callParenAt (lit : Str) (s : Str) : Bool :=
  match afterLit lit s with
  | none => false
  | some s1 => (afterLit ("(".toList) (dropWS s1)).isSome

/-- Lower-case hex digit or decimal digit: `[0-9a-f]` on lower-cased text. -/
def isHexL (c : Char) : Bool :=
  ('0' ≤ c && c ≤ '9') || ('a' ≤ c && c ≤ 'f')

/-- `\\x[0-9a-f]{2}` anchored at the head. -/
def escXAt : Str → Bool
  | '\\' :: 'x' :: h1 :: h2 :: _ => isHexL h1 && isHexL h2
  | _ => false

/-- `\\u[0-9a-f]{4}` anchored at the head. -/
def escUAt : Str → Bool
  | '\\' :: 'u' :: h1 :: h2 :: h3 :: h4 :: _ =>
    isHexL h1 && isHexL h2 && isHexL h3 && isHexL h4
  | _ => false

/-- The nine `suspiciousPatterns`, each paired with the name the source
derives for the log message (`pattern.source.split('|')[0]`), in source
order. -/
def suspiciousPatterns : List ((Str → Bool) × Str) :=
  [ (anyKeyword [("mining".toList), ("miner".toList), ("crypto".toList),
      ("bitcoin".toList), ("ethereum".toList), ("monero".toList),
      ("xmr".toList), ("btc".toList), ("eth".toList)], ("mining".toList)),
    (anyKeyword [("hashrate".toList), ("difficulty".toList),
      ("pool".toList), ("stratum".toList)], ("hashrate".toList)),
    (anyKeyword [("gpu".toList), ("cuda".toList), ("opencl".toList),
      ("amd".toList), ("nvidia".toList)], ("gpu".toList)),
    (anyKeyword [("ddos".toList), ("flood".toList), ("spam".toList),
      ("attack".toList), ("exploit".toList)], ("ddos".toList)),
    (anyKeyword [("proxy".toList), ("vpn".toList), ("tor".toList),
      ("onion".toList)], ("proxy".toList)),
    (anyKeyword [("botnet".toList), ("zombie".toList), ("malware".toList)],
      ("botnet".toList)),
    (fun s => hasSub ("infinite".toList) s || scanAny whileTrueAt s ||
      scanAny forSemiAt s, ("infinite".toList)),
    (fun s => hasSub ("fork".toList) s ||
      dotStarPair ("spawn".toList) ("spawn".toList) s ||
      dotStarPair ("exec".toList) ("exec".toList) s, ("fork".toList)),
    (fun s => dotStarPair ("memory".toList) ("allocation".toList) s ||
      dotStarPair ("malloc".toList) ("malloc".toList) s,
      ("memory.*allocation".toList)) ]

/-- The four `obfuscationIndicators`, in source order. -/
def obfuscationIndicators : List (Str → Bool) :=
  [ scanAny (callParenAt ("eval".toList)),
    scanAny (callParenAt ("exec".toList)),
    scanAny escXAt,
    scanAny escUAt ]

/-- Per-file contribution of `analyzeCode`: reasons pushed and score added,
in the exact order of the source loop (nine keyword patterns, then the large
file check, then the four obfuscation indicators). -/
def analyzeFile (f : SrcFile) : List Str × Nat :=
  let content := lower f.content
  let kw := suspiciousPatterns.foldl
    (fun acc p =>
      if p.1 content then
        (acc.1 ++ [("Suspicious pattern detected in ".toList) ++ f.filename ++
          (": ".toList) ++ p.2], acc.2 + 10)
      else acc) ([], 0)
  let lns := splitNL content
  let big :=
    if lns.length > 10000 then
      (kw.1 ++ [("Large file detected: ".toList) ++ f.filename ++
        (" (".toList) ++ natStr lns.length ++ (" lines)".toList)], kw.2 + 5)
    else kw
  obfuscationIndicators.foldl
    (fun acc t =>
      if t content then
        (acc.1 ++ [("Potential code obfuscation in ".toList) ++ f.filename],
          acc.2 + 15)
      else acc) big

/-- Result record of `RADARSystem.analyzeCode`. -/
structure RadarResult where
  isSuspicious : Bool
  reasons : List Str
  riskScore : Nat
deriving DecidableEq, Repr

/-- `RADARSystem.analyzeCode` : accumulate reasons and risk score over all
files; the verdict is suspicious exactly when the total score exceeds 20. -/
def analyzeCode (files : List SrcFile) : RadarResult :=
  let acc := files.foldl
    (fun acc f =>
      let r := analyzeFile f
      (acc.1 ++ r.1, acc.2 + r.2)) ([], 0)
  { isSuspicious := acc.2 > 20, reasons := acc.1, riskScore := acc.2 }

/-! ## Workspace materialization (`BotManager.createBotWorkspace`)

The source applies four sequential global `String.replace` passes to each
file content.  Every regex involved is an alternation of literal strings
once its character classes are expanded, so each pass is an executable
leftmost scan: at every position the alternatives are tried in order; on a
match the (literal) replacement is emitted and scanning resumes after the
matched span.  The JS replacement string is the template literal with the
credential wrapped in double quotes; JS `$`-escape interpretation inside
replacements is not modelled, so theorems quantifying over credentials carry
an explicit no-`$` hypothesis. -/

/-- First alternative (in order) that is a leading segment of `s`. -/
def findAlt (alts : List Str) (s : Str) : Option Str :=
  alts.find? fun a => startsWithL a s

/-- Fuel-indexed global replace of an alternation of literals.  `fuel` is an
upper bound on the positions still to scan; `replaceAlts` supplies
`s.length`, which is always sufficient. -/
def replaceAltsF (alts : List Str) (repl : Str) : Nat → Str → Str
  | 0, s => s
  | _ + 1, [] => []
  | fuel + 1, c :: rest =>
    match findAlt alts (c :: rest) with
    | some (_ :: as) => repl ++ replaceAltsF alts repl fuel (rest.drop as.length)
    | _ => c :: replaceAltsF alts repl fuel rest

/-- Model of `content.replace(/a1|a2|…/g, repl)` for literal alternatives. -/
def replaceAlts (alts : List Str) (repl : Str) (s : Str) : Str :=
  replaceAltsF alts repl s.length s

/-- Single-quote character, kept out of string literals. -/
def sq : Char := '\''

/-- Pass 1 alternatives: `YOUR_BOT_TOKEN|"YOUR_BOT_TOKEN"|'YOUR_BOT_TOKEN'`. -/
def pass1Alts : List Str :=
  [ ("YOUR_BOT_TOKEN".toList),
    ("\"YOUR_BOT_TOKEN\"".toList),
    sq :: ("YOUR_BOT_TOKEN".toList) ++ [sq] ]

/-- Pass 2 alternatives:
`process\.env\.DISCORD_TOKEN|process\.env\.BOT_TOKEN|process\.env\.TOKEN`. -/
def pass2Alts : List Str :=
  [ ("process.env.DISCORD_TOKEN".toList),
    ("process.env.BOT_TOKEN".toList),
    ("process.env.TOKEN".toList) ]

/-- Build one environment-lookup literal from its pieces and quote pair. -/
def envIdiom (pre : Str) (q1 q2 : Char) (post : Str) : Str :=
  pre ++ q1 :: ("DISCORD_TOKEN".toList) ++ q2 :: post

/-- Pass 3 alternatives:
`os\.environ\.get\(['"]DISCORD_TOKEN['"]\)|os\.environ\[['"]DISCORD_TOKEN['"]\]`
with both character classes expanded (the classes are independent; at any
text position at most one expansion can match, so expansion order is
irrelevant). -/
def pass3Alts : List Str :=
  [ envIdiom ("os.environ.get(".toList) sq sq (")".toList),
    envIdiom ("os.environ.get(".toList) sq '"' (")".toList),
    envIdiom ("os.environ.get(".toList) '"' sq (")".toList),
    envIdiom ("os.environ.get(".toList) '"' '"' (")".toList),
    envIdiom ("os.environ[".toList) sq sq ("]".toList),
    envIdiom ("os.environ[".toList) sq '"' ("]".toList),
    envIdiom ("os.environ[".toList) '"' sq ("]".toList),
    envIdiom ("os.environ[".toList) '"' '"' ("]".toList) ]

/-- Pass 4 alternatives: `os\.getenv\(['"]DISCORD_TOKEN['"]\)` expanded. -/
def pass4Alts : List Str :=
  [ envIdiom ("os.getenv(".toList) sq sq (")".toList),
    envIdiom ("os.getenv(".toList) sq '"' (")".toList),
    envIdiom ("os.getenv(".toList) '"' sq (")".toList),
    envIdiom ("os.getenv(".toList) '"' '"' (")".toList) ]

/-- The replacement emitted by every pass: `"${botToken}"`. -/
def quoteTok (tok : Str) : Str := '"' :: tok ++ ['"']

/-- The four sequential replacement passes applied to one file content by
`createBotWorkspace`, in source order. -/
def substituteContent (tok : Str) (content : Str) : Str :=
  replaceAlts pass4Alts (quoteTok tok)
    (replaceAlts pass3Alts (quoteTok tok)
      (replaceAlts pass2Alts (quoteTok tok)
        (replaceAlts pass1Alts (quoteTok tok) content)))

/-- All placeholder forms in one list (pass order preserved). -/
def allAlts : List Str := pass1Alts ++ pass2Alts ++ pass3Alts ++ pass4Alts

/-- Modelled from the spec wording of §4.1/§8.4: replace every occurrence of
every placeholder form with the double-quoted credential in a single
simultaneous pass.  This is the comparison point for the refinement claim
about `substituteContent`; it is not a translation of the source. -/
def substituteSpec (tok : Str) (content : Str) : Str :=
  replaceAlts allAlts (quoteTok tok) content

/-- `createBotWorkspace` on the pure level: the files written to the bot
directory, each with the substitution passes applied.  The source performs no
emptiness check and raises nothing itself; `none` would model a synchronous
throw, which no path of the source produces. -/
def createBotWorkspace (files : List SrcFile) (tok : Str) : Option (List SrcFile) :=
  some (files.map fun f => ⟨f.filename, substituteContent tok f.content⟩)

/-! ## Dependency inference (`BotManager.autoCreateDependencies`)

The source runs only when the runtime manifest is absent, scans runtime
files (per trimmed lower-cased line for Runtime A, per lower-cased whole
content for Runtime B) against an ordered table of substring conditions, and
accumulates dependency pins with set semantics (first insertion wins, order
preserved). -/

/-- `suf` is a trailing segment of `s` (`String.prototype.endsWith`). -/
def endsWithL (suf s : Str) : Bool := startsWithL suf.reverse s.reverse

/-- Insert with `Set`/object-key semantics: no duplicates, insertion order. -/
def insertUniq (x : Str) (l : List Str) : List Str :=
  if x ∈ l then l else l ++ [x]

/-- One scan unit (a cleaned line for Runtime A, a whole lower-cased content
for Runtime B) processed against an ordered condition/pin table. -/
def stepTable (table : List ((Str → Bool) × Str)) (acc : List Str) (unit : Str) :
    List Str :=
  table.foldl (fun acc cp => if cp.1 unit then insertUniq cp.2 acc else acc) acc

/-- The Runtime A (python) condition table, in source order.  Each row is the
disjunction of `includes` tests the source applies to the cleaned line,
paired with the pin added. -/
def pyTable : List ((Str → Bool) × Str) :=
  [ (fun l => hasSub ("discord.py".toList) l || hasSub ("import discord".toList) l ||
      hasSub ("from discord".toList) l, ("discord.py>=2.3.0".toList)),
    (fun l => hasSub ("aiohttp".toList) l || hasSub ("import aiohttp".toList) l,
      ("aiohttp>=3.8.0".toList)),
    (fun l => hasSub ("requests".toList) l || hasSub ("import requests".toList) l,
      ("requests>=2.28.0".toList)),
    (fun l => hasSub ("asyncio".toList) l || hasSub ("import asyncio".toList) l,
      ("asyncio".toList)),
    (fun l => hasSub ("json".toList) l || hasSub ("import json".toList) l,
      ("json5>=0.9.0".toList)),
    (fun l => hasSub ("sqlite3".toList) l || hasSub ("import sqlite3".toList) l,
      ("sqlite3".toList)),
    (fun l => hasSub ("mysql".toList) l || hasSub ("pymysql".toList) l,
      ("PyMySQL>=1.0.0".toList)),
    (fun l => hasSub ("postgres".toList) l || hasSub ("psycopg".toList) l,
      ("psycopg2-binary>=2.9.0".toList)),
    (fun l => hasSub ("dotenv".toList) l || hasSub ("python-dotenv".toList) l,
      ("python-dotenv>=0.19.0".toList)) ]

/-- The python files of an upload: filename ends in `.py`. -/
def pyFilesOf (files : List SrcFile) : List SrcFile :=
  files.filter fun f => endsWithL (".py".toList) f.filename

/-- The cleaned lines of a file: `line.trim().toLowerCase()` for each line. -/
def cleanLines (content : Str) : List Str :=
  (splitNL content).map fun l => lower (trimL l)

/-- The accumulated python import pins before the baseline fallback. -/
def pyImportsScan (files : List SrcFile) : List Str :=
  (pyFilesOf files).foldl
    (fun acc f => (cleanLines f.content).foldl (stepTable pyTable) acc) []

/-- Python pins including the baseline: `discord.py` when no marker matched
but at least one python file exists. -/
def pyImports (files : List SrcFile) : List Str :=
  if (pyImportsScan files).isEmpty && !(pyFilesOf files).isEmpty then
    [("discord.py>=2.3.0".toList)]
  else pyImportsScan files

/-- Runtime A arm of `autoCreateDependencies`: `none` when nothing is
written (manifest already present, or no pins); otherwise the
`requirements.txt` content, pins joined by LF. -/
def autoCreatePy (reqExists : Bool) (files : List SrcFile) : Option Str :=
  if reqExists then none
  else if (pyImports files).isEmpty then none
  else some (joinNL (pyImports files))

/-- The Runtime B (nodejs) condition table, in source order.  Pins are
`name@version` pairs rendered as a single string `name@@version` purely to
share the `Str` machinery; membership of a pin means the corresponding
key/value entry is in the `dependencies` object. -/
def depPair (name ver : Str) : Str := name ++ ("@@".toList) ++ ver

/-- The nodejs condition table, in source order. -/
def jsTable : List ((Str → Bool) × Str) :=
  [ (fun c => hasSub ("discord.js".toList) c ||
      hasSub (("require(".toList) ++ sq :: ("discord".toList)) c ||
      (hasSub ("import".toList) c && hasSub ("discord".toList) c),
      depPair ("discord.js".toList) ("^14.14.1".toList)),
    (fun c => hasSub ("@discordjs/builders".toList) c ||
      hasSub ("slashcommandbuilder".toList) c,
      depPair ("@discordjs/builders".toList) ("^1.7.0".toList)),
    (fun c => hasSub ("@discordjs/rest".toList) c || hasSub ("rest".toList) c,
      depPair ("@discordjs/rest".toList) ("^2.2.0".toList)),
    (fun c => hasSub ("@discordjs/voice".toList) c,
      depPair ("@discordjs/voice".toList) ("^0.16.1".toList)),
    (fun c => hasSub ("dotenv".toList) c || hasSub ("process.env".toList) c,
      depPair ("dotenv".toList) ("^16.3.1".toList)),
    (fun c => hasSub ("axios".toList) c || hasSub ("http request".toList) c,
      depPair ("axios".toList) ("^1.6.0".toList)),
    (fun c => hasSub ("fs-extra".toList) c,
      depPair ("fs-extra".toList) ("^11.2.0".toList)),
    (fun c => hasSub ("moment".toList) c || hasSub ("date".toList) c,
      depPair ("moment".toList) ("^2.29.4".toList)),
    (fun c => hasSub ("lodash".toList) c || hasSub ("_".toList) c,
      depPair ("lodash".toList) ("^4.17.21".toList)),
    (fun c => hasSub ("sqlite3".toList) c,
      depPair ("sqlite3".toList) ("^5.1.6".toList)),
    (fun c => hasSub ("mysql".toList) c,
      depPair ("mysql2".toList) ("^3.6.5".toList)),
    (fun c => hasSub ("mongoose".toList) c || hasSub ("mongodb".toList) c,
      depPair ("mongoose".toList) ("^8.0.3".toList)) ]

/-- The nodejs files of an upload: `.js` or `.ts`. -/
def jsFilesOf (files : List SrcFile) : List SrcFile :=
  files.filter fun f =>
    endsWithL (".js".toList) f.filename || endsWithL (".ts".toList) f.filename

/-- Accumulated nodejs dependency entries before the baseline fallback.  The
source tests the whole lower-cased content of each file. -/
def jsDepsScan (files : List SrcFile) : List Str :=
  (jsFilesOf files).foldl (fun acc f => stepTable jsTable acc (lower f.content)) []

/-- Nodejs dependencies including the baseline `discord.js` entry. -/
def jsDeps (files : List SrcFile) : List Str :=
  if (jsDepsScan files).isEmpty && !(jsFilesOf files).isEmpty then
    [depPair ("discord.js".toList) ("^14.14.1".toList)]
  else jsDepsScan files

/-- The `package.json` the source serialises (JSON envelope abstracted to its
fields; `dependencies` is the ordered key/value list). -/
structure PackageJson where
  name : Str
  version : Str
  main : Str
  dependencies : List Str
deriving DecidableEq, Repr

/-- Runtime B arm of `autoCreateDependencies`. -/
def autoCreateJs (pkgExists : Bool) (files : List SrcFile) : Option PackageJson :=
  if pkgExists then none
  else if (jsDeps files).isEmpty then none
  else some
    { name := ("discord-bot".toList), version := ("1.0.0".toList),
      main := ("index.js".toList), dependencies := jsDeps files }

/-! ## Lifecycle model (`startBot`, `stopBot`, stream and exit observers)

The stateful engine is embedded as functions from inputs to the ordered list
of externally visible effects (storage writes, log records, process-table
mutations, signals) plus the value returned to the caller.  Asynchronous
callbacks (stream observers, exit observer) are separate functions from
their event payload to their effect list; where a claim depends on the
relative order of a callback and the function that triggered it, the
ordering used is stated at the definition. -/

/-- Persisted bot status values (`shared/schema.ts`). -/
inductive BotStatus
  | stopped
  | starting
  | running
  | error
deriving DecidableEq, Repr

/-- Log severity (`InsertBotLog.type`). -/
inductive LogType
  | info
  | error
  | warn
deriving DecidableEq, Repr

/-- A partial update passed to `storage.updateBot`: `none` fields are left
untouched; `processId := some none` models writing SQL null. -/
structure BotUpdate where
  status : Option BotStatus := none
  processId : Option (Option Nat) := none
  memoryUsage : Option Str := none
  cpuUsage : Option Str := none
  lastStarted : Option Nat := none
deriving DecidableEq, Repr

/-- Externally visible effects of the engine, in program order. -/
inductive Effect
  | updateBot (u : BotUpdate)
  | createLog (t : LogType) (message : Str)
  | materialize (ws : List SrcFile)
  | writeReq (content : Str)
  | writePkg (p : PackageJson)
  | install (ok : Bool)
  | spawnProc (cmd : Str) (args : List Str)
  | setHandle
  | deleteHandle
  | kill (sig : Str)
  | waitUpTo (ms : Nat)
  | removeWorkspace
  | monitor
deriving DecidableEq, Repr

/-- `BotManager.logBotOutput`: the stored record keeps the trimmed message. -/
def logBotOutput (t : LogType) (msg : Str) : Effect :=
  .createLog t (trimL msg)

/-- A stored `BotLogRecord` (only the fields the claims mention). -/
structure BotLogRecord where
  botId : Str
  type : LogType
  message : Str
deriving DecidableEq, Repr

/-- The record `storage.createBotLog` persists for one observer callback. -/
def createBotLogRecord (botId : Str) (t : LogType) (msg : Str) : BotLogRecord :=
  ⟨botId, t, trimL msg⟩

/-- Result returned to the facade caller: `{ success, message }`. -/
structure StartResult where
  success : Bool
  message : Str
deriving DecidableEq, Repr

/-- Inputs of one `startBot` call that the source reads from storage and the
OS.  `spawnPid` and `now` stand for `childProcess.pid` and `new Date()`. -/
structure StartInput where
  botFound : Bool
  alreadyRunning : Bool
  token : Str
  language : Str
  mainFile : Option Str
  files : List SrcFile
  spawnPid : Nat
  now : Nat
deriving DecidableEq, Repr

/-- The update written whenever the engine parks a bot: target status with
cleared pid and zeroed usage fields. -/
def clearedUpdate (st : BotStatus) : BotUpdate :=
  { status := some st, processId := some none,
    memoryUsage := some ("0MB".toList), cpuUsage := some ("0%".toList) }

/-- The update written after a successful spawn: status `running`, the fresh
pid and the start timestamp. -/
def runningUpdate (pid now : Nat) : BotUpdate :=
  { status := some .running, processId := some (some pid),
    lastStarted := some now }

/-- The catch-all at the end of `startBot`: persist `error`, store a log
record, and return a failure result carrying the thrown message. -/
def startFailure (eff : List Effect) (msg : Str) : List Effect × Except Str StartResult :=
  (eff ++ [.updateBot { status := some .error },
    logBotOutput .error (("Failed to start bot: ".toList) ++ msg)],
   .ok ⟨false, ("Failed to start bot: ".toList) ++ msg⟩)

/-- Join with a comma and space (`Array.prototype.join(', ')`). -/
def joinComma : List Str → Str
  | [] => []
  | [x] => x
  | x :: xs => x ++ (", ".toList) ++ joinComma xs

/-- The RADAR veto log message of `startBot`. -/
def radarLogMsg (r : RadarResult) : Str :=
  ("RADAR: Suspicious code detected. Risk score: ".toList) ++ natStr r.riskScore ++
    (". Reasons: ".toList) ++ joinComma r.reasons

/-- Main-file resolution for one runtime: the declared main file if any, else
the first runtime file whose lower-cased name is in the preferred list, else
the first runtime file; then the workspace existence check with fallback to
the first runtime file.  Errors carry the thrown message. -/
def resolveMain (isRt : Str → Bool) (commons : List Str) (noExec noWs : Str)
    (declared : Option Str) (files : List SrcFile) : Except Str Str :=
  let rf := files.filter fun f => isRt f.filename
  let m0 : Option Str :=
    match declared with
    | some m => some m
    | none =>
      match rf.find? (fun f => lower f.filename ∈ commons) with
      | some f => some f.filename
      | none => rf.head?.map (·.filename)
  match m0 with
  | none => .error noExec
  | some m =>
    if files.any (fun f => f.filename = m) then .ok m
    else
      match rf.head? with
      | some f => .ok f.filename
      | none => .error noWs

/-- Preferred Runtime A main files (`commonMainFiles`, python branch). -/
def pyCommons : List Str :=
  [("main.py".toList), ("bot.py".toList), ("app.py".toList),
   ("run.py".toList), ("__main__.py".toList), ("start.py".toList)]

/-- Preferred Runtime B main files (`commonMainFiles`, nodejs branch). -/
def jsCommons : List Str :=
  [("index.js".toList), ("main.js".toList), ("app.js".toList),
   ("bot.js".toList), ("start.js".toList), ("server.js".toList)]

/-- The manifest write performed by `autoCreateDependencies` during a start:
the workspace contains exactly the materialized files, so the manifest
exists iff a file with the manifest name was uploaded. -/
def manifestEffects (inp : StartInput) : List Effect :=
  if inp.language = ("python".toList) then
    match autoCreatePy (inp.files.any fun f => f.filename = ("requirements.txt".toList))
        inp.files with
    | some m => [.writeReq m]
    | none => []
  else if inp.language = ("nodejs".toList) then
    match autoCreateJs (inp.files.any fun f => f.filename = ("package.json".toList))
        inp.files with
    | some p => [.writePkg p]
    | none => []
  else []

/-- The effect of `storage.updateBot(botId, { status: 'starting' })` at the
top of `startBot`. -/
def startingEffects : List Effect := [.updateBot { status := some .starting }]

/-- The effects of a start attempt up to and including the dependency
installation: persist `starting`, materialize the workspace, write the
inferred manifest if any, run the installer. -/
def preSpawn (inp : StartInput) (installOk : Bool) : List Effect :=
  (startingEffects ++
    [.materialize ((createBotWorkspace inp.files inp.token).getD [])]) ++
    manifestEffects inp ++ [.install installOk]

/-- The veto branch of `startBot` for a suspicious RADAR verdict. -/
def radarVeto (r : RadarResult) : List Effect × Except Str StartResult :=
  (startingEffects ++ [.updateBot { status := some .error },
    logBotOutput .error (radarLogMsg r)],
   .ok ⟨false,
     ("Bot blocked by RADAR system. Suspicious activity detected: ".toList) ++
       r.reasons.headD []⟩)

/-- The effects following a successful spawn: child spawned, handle
registered, the optimistic `running` update persisted, monitoring started. -/
def spawnEffects (cmd : Str) (args : List Str) (inp : StartInput) : List Effect :=
  [.spawnProc cmd args, .setHandle,
   .updateBot (runningUpdate inp.spawnPid inp.now), .monitor]

/-- `BotManager.startBot`.  `installOk` is the outcome of the dependency
installation subprocess; the source logs it to the console only and never
branches on it.  `.error` in the second component models the uncaught throw
for a missing bot; every other path returns a result to the caller. -/
def startBot (inp : StartInput) (installOk : Bool) :
    List Effect × Except Str StartResult :=
  if !inp.botFound then ([], .error ("Bot not found".toList))
  else if inp.alreadyRunning then
    ([], .ok ⟨false, ("Bot is already running".toList)⟩)
  else if inp.token.isEmpty then
    startFailure startingEffects ("Bot token is missing".toList)
  else if inp.language.isEmpty then
    startFailure startingEffects ("Bot language is not specified".toList)
  else if (analyzeCode inp.files).isSuspicious then
    radarVeto (analyzeCode inp.files)
  else if inp.language = ("python".toList) then
    match resolveMain (fun n => endsWithL (".py".toList) n) pyCommons
        ("No Python files found to execute".toList)
        ("No Python files found in workspace".toList)
        inp.mainFile inp.files with
    | .error msg => startFailure (preSpawn inp installOk) msg
    | .ok m =>
      (preSpawn inp installOk ++
        spawnEffects ("python3".toList) [("-u".toList), m] inp,
       .ok ⟨true, ("Bot started successfully".toList)⟩)
  else if inp.language = ("nodejs".toList) then
    match resolveMain
        (fun n => endsWithL (".js".toList) n || endsWithL (".ts".toList) n)
        jsCommons
        ("No JavaScript files found to execute".toList)
        ("No JavaScript files found in workspace".toList)
        inp.mainFile inp.files with
    | .error msg => startFailure (preSpawn inp installOk) msg
    | .ok m =>
      (preSpawn inp installOk ++ spawnEffects ("node".toList) [m] inp,
       .ok ⟨true, ("Bot started successfully".toList)⟩)
  else
    startFailure (preSpawn inp installOk)
      (("Unsupported language: ".toList) ++ inp.language)

/-- The readiness markers checked against each stdout chunk. -/
def readyMarkers : List Str :=
  [("Logged in as".toList), ("Bot is ready".toList),
   ("Successfully logged in".toList)]

/-- The fatal markers checked against each stderr chunk. -/
def fatalMarkers : List Str :=
  [("LoginFailure".toList), ("Improper token".toList),
   ("Unauthorized".toList), ("Invalid token".toList)]

/-- The stdout observer attached in `startBot`: persist `running` when a
readiness marker occurs in the chunk, then store the chunk as an info log. -/
def stdoutObserver (output : Str) : List Effect :=
  (if readyMarkers.any (fun m => hasSub m output) then
    [.updateBot { status := some .running }]
  else []) ++ [logBotOutput .info output]

/-- The stderr observer attached in `startBot`. -/
def stderrObserver (output : Str) : List Effect :=
  (if fatalMarkers.any (fun m => hasSub m output) then
    [.updateBot { status := some .error }]
  else []) ++ [logBotOutput .error output]

/-- Exit-code rendering in the exit log message (`null` for a signal). -/
def showExitCode : Option Int → Str
  | some n => (toString n).toList
  | none => ("null".toList)

/-- The exit observer attached in `startBot`: remove the handle, then persist
the status derived from the exit code together with cleared pid and zeroed
usage fields, then store the exit log record. -/
def exitObserver (code : Option Int) : List Effect :=
  [.deleteHandle,
   .updateBot (clearedUpdate (if code = some 0 then .stopped else .error)),
   logBotOutput (if code = some 0 then .info else .error)
     (("Process exited with code ".toList) ++ showExitCode code)]

/-- The spawn-error observer attached in `startBot`. -/
def errorObserver (msg : Str) : List Effect :=
  [.deleteHandle,
   .updateBot (clearedUpdate .error),
   logBotOutput .error (("Process error: ".toList) ++ msg)]

/-- `BotManager.stopBot` when no handle is registered. -/
def stopBotNoHandle : List Effect × StartResult :=
  ([.updateBot (clearedUpdate .stopped)],
   ⟨true, ("Bot was not running".toList)⟩)

/-- `BotManager.stopBot` with a live handle.  `ignoresSigterm` selects the
escalation path: the 5-second wait expires and a forceful kill is sent
before the promise resolves. -/
def stopBot (ignoresSigterm : Bool) : List Effect × StartResult :=
  ((if ignoresSigterm then
      [.kill ("SIGTERM".toList), .waitUpTo 5000, .kill ("SIGKILL".toList)]
    else [.kill ("SIGTERM".toList)]) ++
   [.deleteHandle,
    .updateBot (clearedUpdate .stopped),
    .removeWorkspace],
   ⟨true, ("Bot stopped successfully".toList)⟩)

/-- The full effect sequence of a stop whose child ignores the graceful
signal.  Ordering: the timeout callback sends the kill and resolves the
wait synchronously, so `stopBot` finishes its storage write in the same
event-loop turn; the exit of the killed child is observed on a later turn,
hence the exit-observer effects (exit code `null`) follow the stop
effects. -/
def stopEscalationTrace : List Effect :=
  (stopBot true).1 ++ exitObserver none

/-- The persisted status values written by a trace, in order. -/
def statusUpdates (es : List Effect) : List BotStatus :=
  es.filterMap fun e =>
    match e with
    | .updateBot u => u.status
    | _ => none

/-- The final persisted status of a trace, if any write occurred. -/
def lastStatus (es : List Effect) : Option BotStatus :=
  (statusUpdates es).getLast?

/-! ## Child environment and log records (credential flow) -/

/-- Object-spread override: `{...env, k: v}` with a fresh key position. -/
def setEnv (env : List (Str × Str)) (k v : Str) : List (Str × Str) :=
  (env.filter fun p => p.1 ≠ k) ++ [(k, v)]

/-- The environment passed to the spawned child in `startBot`: the inherited
environment augmented with the raw credential under `DISCORD_TOKEN`, the
bot id, the resolved `NODE_ENV` and the unbuffering flag. -/
def childEnv (base : List (Str × Str)) (token botId nodeEnv : Str) :
    List (Str × Str) :=
  setEnv (setEnv (setEnv (setEnv base ("DISCORD_TOKEN".toList) token)
    ("BOT_ID".toList) botId) ("NODE_ENV".toList) nodeEnv)
    ("PYTHONUNBUFFERED".toList) ("1".toList)

/-- Key lookup in an environment with unique keys. -/
def envLookup (env : List (Str × Str)) (k : Str) : Option Str :=
  (env.find? fun p => p.1 = k).map (·.2)

/-- A fixture child that echoes its environment: one `KEY=value` line per
entry. -/
def renderEnv (env : List (Str × Str)) : Str :=
  joinNL (env.map fun p => p.1 ++ '=' :: p.2)

deriving instance DecidableEq for Except

/-- A concrete healthy start input used by witnesses and counterexamples. -/
def happyInput : StartInput :=
  { botFound := true, alreadyRunning := false,
    token := ("tok123".toList), language := ("python".toList),
    mainFile := none,
    files := [⟨("bot.py".toList), ("print(1)".toList)⟩],
    spawnPid := 42, now := 7 }

/-! ## Trace extractors and concrete fixtures -/

/-- Normalize the recorded installer outcome in a trace.  Two traces with
equal `scrubInstall` images differ at most in the installer outcome. -/
def scrubInstall (es : List Effect) : List Effect :=
  es.map fun e =>
    match e with
    | .install _ => .install true
    | e => e

/-- Did the trace attempt to spawn the child program? -/
def spawnRan (es : List Effect) : Bool :=
  es.any fun e =>
    match e with
    | .spawnProc _ _ => true
    | _ => false

/-- Did the trace run the dependency installer? -/
def installRan (es : List Effect) : Bool :=
  es.any fun e =>
    match e with
    | .install _ => true
    | _ => false

/-- A credential fixture for the leakage counterexample. -/
def cexToken : Str := ("Yx9.secret-TOKEN-42".toList)

/-- What an env-echoing child prints on stdout when spawned by `startBot`
with credential `cexToken` for bot `b1` over a one-entry base environment. -/
def cexEnvDump : Str :=
  renderEnv (childEnv [(("PATH".toList), ("/usr/bin".toList))] cexToken
    ("b1".toList) ("production".toList))

/-- A file with exactly two mining keywords (distinct pattern groups). -/
def twoMiningFile : SrcFile := ⟨("miner.py".toList), ("mining hashrate".toList)⟩

/-- A file with two mining keywords from the same pattern group. -/
def twoMiningSameFile : SrcFile := ⟨("m.py".toList), ("bitcoin miner".toList)⟩

/-- The benign fixture of the spec. -/
def helloFile : SrcFile := ⟨("main.py".toList), ("hello world".toList)⟩

/-- Benign English words that hit three pattern groups by raw substring
matching: `method` contains `eth`, `difficulty` is a keyword, `history`
contains `tor`. -/
def benignWordsFile : SrcFile :=
  ⟨("notes.py".toList), ("method difficulty history".toList)⟩

/-- The §4.2 Runtime A marker/pin table, markers expanded. -/
def pyMarkerPins : List (Str × Str) :=
  [ (("discord.py".toList), ("discord.py>=2.3.0".toList)),
    (("import discord".toList), ("discord.py>=2.3.0".toList)),
    (("from discord".toList), ("discord.py>=2.3.0".toList)),
    (("aiohttp".toList), ("aiohttp>=3.8.0".toList)),
    (("requests".toList), ("requests>=2.28.0".toList)),
    (("dotenv".toList), ("python-dotenv>=0.19.0".toList)),
    (("python-dotenv".toList), ("python-dotenv>=0.19.0".toList)),
    (("pymysql".toList), ("PyMySQL>=1.0.0".toList)),
    (("mysql".toList), ("PyMySQL>=1.0.0".toList)),
    (("psycopg".toList), ("psycopg2-binary>=2.9.0".toList)),
    (("postgres".toList), ("psycopg2-binary>=2.9.0".toList)) ]

/-- Runtime B marker/pin rows (chat library, companions, and the §4.2
auxiliary libraries), markers as the source tests them. -/
def jsMarkerPins : List (Str × Str) :=
  [ (("discord.js".toList), depPair ("discord.js".toList) ("^14.14.1".toList)),
    (("@discordjs/builders".toList),
      depPair ("@discordjs/builders".toList) ("^1.7.0".toList)),
    (("slashcommandbuilder".toList),
      depPair ("@discordjs/builders".toList) ("^1.7.0".toList)),
    (("@discordjs/rest".toList),
      depPair ("@discordjs/rest".toList) ("^2.2.0".toList)),
    (("@discordjs/voice".toList),
      depPair ("@discordjs/voice".toList) ("^0.16.1".toList)),
    (("dotenv".toList), depPair ("dotenv".toList) ("^16.3.1".toList)),
    (("axios".toList), depPair ("axios".toList) ("^1.6.0".toList)),
    (("fs-extra".toList), depPair ("fs-extra".toList) ("^11.2.0".toList)),
    (("moment".toList), depPair ("moment".toList) ("^2.29.4".toList)),
    (("lodash".toList), depPair ("lodash".toList) ("^4.17.21".toList)),
    (("sqlite3".toList), depPair ("sqlite3".toList) ("^5.1.6".toList)),
    (("mysql".toList), depPair ("mysql2".toList) ("^3.6.5".toList)),
    (("mongoose".toList), depPair ("mongoose".toList) ("^8.0.3".toList)),
    (("mongodb".toList), depPair ("mongoose".toList) ("^8.0.3".toList)) ]

/-- A source containing the placeholder in all four §8.4 forms, used for the
concrete multi-form materialization demonstration. -/
def multiFormContent : Str :=
  ("run(YOUR_BOT_TOKEN)\nrun(\"YOUR_BOT_TOKEN\")\nrun(".toList) ++
    sq :: ("YOUR_BOT_TOKEN".toList) ++ sq :: (")\nrun(process.env.TOKEN)\nrun(os.getenv(".toList) ++
    sq :: ("DISCORD_TOKEN".toList) ++ sq :: ("))".toList)

/-- The expected materialized file for `multiFormContent` with credential
`tok123`: every form replaced by the double-quoted credential. -/
def multiFormExpected : Str :=
  ("run(\"tok123\")\nrun(\"tok123\")\nrun(\"tok123\")\nrun(\"tok123\")\nrun(\"tok123\")".toList)

/-- The happy input with the three-pattern benign-words file. -/
def vetoInput : StartInput := { happyInput with files := [benignWordsFile] }

/-- The happy input with the two-mining-keywords file. -/
def twoMiningInput : StartInput := { happyInput with files := [twoMiningFile] }

/-! ## Helper lemmas -/

theorem mem_of_startsWithL : ∀ {a s : Str}, startsWithL a s = true → ∀ c ∈ a, c ∈ s := by
  intro a
  induction a with
  | nil => intro s _ c hc; cases hc
  | cons x xs ih =>
    intro s h c hc
    cases s with
    | nil => simp [startsWithL] at h
    | cons y ys =>
      simp only [startsWithL, Bool.and_eq_true, decide_eq_true_eq] at h
      obtain ⟨rfl, h2⟩ := h
      rcases List.mem_cons.mp hc with rfl | hc
      · exact List.mem_cons_self _ _
      · exact List.mem_cons_of_mem _ (ih h2 c hc)

theorem replaceAltsF_nil (alts : List Str) (r : Str) (fuel : Nat) :
    replaceAltsF alts r fuel [] = [] := by
  cases fuel <;> rfl

theorem replaceAltsF_id (alts : List Str) (r : Str) :
    ∀ (fuel : Nat) (s : Str), (∀ a ∈ alts, ∃ ch, ch ∈ a ∧ ch ∉ s) →
    replaceAltsF alts r fuel s = s := by
  intro fuel
  induction fuel with
  | zero => intro s _; rfl
  | succ n ih =>
    intro s h
    cases s with
    | nil => rfl
    | cons c t =>
      have hF : findAlt alts (c :: t) = none := by
        apply List.find?_eq_none.mpr
        intro a ha hsw
        obtain ⟨ch, hch, hns⟩ := h a ha
        exact hns (mem_of_startsWithL hsw ch hch)
      simp only [replaceAltsF, hF]
      congr 1
      exact ih t fun a ha =>
        (h a ha).imp fun ch hp => ⟨hp.1, fun hm => hp.2 (List.mem_cons_of_mem _ hm)⟩

theorem replaceAlts_id (alts : List Str) (r : Str) (s : Str)
    (h : ∀ a ∈ alts, ∃ ch, ch ∈ a ∧ ch ∉ s) : replaceAlts alts r s = s :=
  replaceAltsF_id alts r s.length s h

theorem replaceAlts_self_match (alts : List Str) (r : Str) (c : Char) (rest : Str)
    (h : findAlt alts (c :: rest) = some (c :: rest)) :
    replaceAlts alts r (c :: rest) = r := by
  show replaceAltsF alts r (rest.length + 1) (c :: rest) = r
  simp only [replaceAltsF, h]
  rw [List.drop_length, replaceAltsF_nil, List.append_nil]

theorem quoteTok_not_mem {c : Char} {tok : Str} (hc : c ≠ '"') (h : c ∉ tok) :
    c ∉ quoteTok tok := by
  unfold quoteTok
  intro hm
  rcases List.mem_cons.mp hm with rfl | hm
  · exact hc rfl
  · rcases List.mem_append.mp hm with h1 | h1
    · exact h h1
    · rw [List.mem_singleton] at h1
      exact hc h1

theorem replaceAlts_quoteTok_id (alts : List Str) (r : Str) (tok : Str)
    (hall : ∀ a ∈ alts, '.' ∈ a) (hdot : '.' ∉ tok) :
    replaceAlts alts r (quoteTok tok) = quoteTok tok :=
  replaceAlts_id alts r _ fun a ha =>
    ⟨'.', hall a ha, quoteTok_not_mem (by decide) hdot⟩

theorem substituteContent_hits_pass1 (tok : Str) (c : Char) (rest : Str)
    (h1 : findAlt pass1Alts (c :: rest) = some (c :: rest)) (hdot : '.' ∉ tok) :
    substituteContent tok (c :: rest) = quoteTok tok := by
  unfold substituteContent
  rw [replaceAlts_self_match _ _ _ _ h1,
    replaceAlts_quoteTok_id pass2Alts _ _ (by decide) hdot,
    replaceAlts_quoteTok_id pass3Alts _ _ (by decide) hdot,
    replaceAlts_quoteTok_id pass4Alts _ _ (by decide) hdot]

theorem substituteContent_hits_pass2 (tok : Str) (c : Char) (rest : Str)
    (hid1 : ∀ a ∈ pass1Alts, ∃ ch, ch ∈ a ∧ ch ∉ (c :: rest))
    (h2 : findAlt pass2Alts (c :: rest) = some (c :: rest)) (hdot : '.' ∉ tok) :
    substituteContent tok (c :: rest) = quoteTok tok := by
  unfold substituteContent
  rw [replaceAlts_id _ _ _ hid1, replaceAlts_self_match _ _ _ _ h2,
    replaceAlts_quoteTok_id pass3Alts _ _ (by decide) hdot,
    replaceAlts_quoteTok_id pass4Alts _ _ (by decide) hdot]

theorem substituteContent_hits_pass3 (tok : Str) (c : Char) (rest : Str)
    (hid1 : ∀ a ∈ pass1Alts, ∃ ch, ch ∈ a ∧ ch ∉ (c :: rest))
    (hid2 : ∀ a ∈ pass2Alts, ∃ ch, ch ∈ a ∧ ch ∉ (c :: rest))
    (h3 : findAlt pass3Alts (c :: rest) = some (c :: rest)) (hdot : '.' ∉ tok) :
    substituteContent tok (c :: rest) = quoteTok tok := by
  unfold substituteContent
  rw [replaceAlts_id _ _ _ hid1, replaceAlts_id _ _ _ hid2,
    replaceAlts_self_match _ _ _ _ h3,
    replaceAlts_quoteTok_id pass4Alts _ _ (by decide) hdot]

theorem substituteContent_hits_pass4 (tok : Str) (c : Char) (rest : Str)
    (hid1 : ∀ a ∈ pass1Alts, ∃ ch, ch ∈ a ∧ ch ∉ (c :: rest))
    (hid2 : ∀ a ∈ pass2Alts, ∃ ch, ch ∈ a ∧ ch ∉ (c :: rest))
    (hid3 : ∀ a ∈ pass3Alts, ∃ ch, ch ∈ a ∧ ch ∉ (c :: rest))
    (h4 : findAlt pass4Alts (c :: rest) = some (c :: rest)) :
    substituteContent tok (c :: rest) = quoteTok tok := by
  unfold substituteContent
  rw [replaceAlts_id _ _ _ hid1, replaceAlts_id _ _ _ hid2,
    replaceAlts_id _ _ _ hid3, replaceAlts_self_match _ _ _ _ h4]

theorem mem_insertUniq_self (x : Str) (l : List Str) : x ∈ insertUniq x l := by
  unfold insertUniq
  split
  · assumption
  · simp

theorem mem_insertUniq_of_mem {x : Str} (y : Str) {l : List Str} (h : x ∈ l) :
    x ∈ insertUniq y l := by
  unfold insertUniq
  split
  · exact h
  · exact List.mem_append_left _ h

theorem mem_stepTable_of_mem (T : List ((Str → Bool) × Str)) (u : Str)
    {x : Str} {acc : List Str} (h : x ∈ acc) : x ∈ stepTable T acc u := by
  unfold stepTable
  induction T generalizing acc with
  | nil => simpa using h
  | cons cp T ih =>
    rw [List.foldl_cons]
    apply ih
    split
    · exact mem_insertUniq_of_mem _ h
    · exact h

theorem mem_stepTable_get (T : List ((Str → Bool) × Str)) (u : Str)
    (i : Fin T.length) (hc : (T.get i).1 u = true) (acc : List Str) :
    (T.get i).2 ∈ stepTable T acc u := by
  unfold stepTable
  induction T generalizing acc with
  | nil => exact absurd i.isLt (by simp)
  | cons cp T ih =>
    rw [List.foldl_cons]
    rcases i with ⟨iv, hlt⟩
    cases iv with
    | zero =>
      simp only [List.get] at hc ⊢
      rw [hc]
      simp only [if_true]
      have h0 := mem_insertUniq_self cp.2 acc
      have h1 := mem_stepTable_of_mem T u h0
      simpa [stepTable] using h1
    | succ n =>
      simp only [List.get] at hc ⊢
      exact ih ⟨n, Nat.lt_of_succ_lt_succ hlt⟩ hc _

theorem mem_linesFold_of_mem (T : List ((Str → Bool) × Str)) (lines : List Str)
    {x : Str} {acc : List Str} (h : x ∈ acc) :
    x ∈ lines.foldl (stepTable T) acc := by
  induction lines generalizing acc with
  | nil => exact h
  | cons l lines ih =>
    rw [List.foldl_cons]
    exact ih (mem_stepTable_of_mem T l h)

theorem mem_linesFold_get (T : List ((Str → Bool) × Str)) (i : Fin T.length)
    {lines : List Str} {l : Str} (hl : l ∈ lines) (hc : (T.get i).1 l = true)
    (acc : List Str) : (T.get i).2 ∈ lines.foldl (stepTable T) acc := by
  induction lines generalizing acc with
  | nil => cases hl
  | cons x lines ih =>
    rw [List.foldl_cons]
    rcases List.mem_cons.mp hl with rfl | h
    · exact mem_linesFold_of_mem T lines (mem_stepTable_get T l i hc acc)
    · exact ih h _

theorem find?_filter_none (env : List (Str × Str)) (k : Str) :
    (env.filter fun p => p.1 ≠ k).find? (fun p => p.1 = k) = none := by
  apply List.find?_eq_none.mpr
  intro x hx
  have h2 := (List.mem_filter.mp hx).2
  simp only [ne_eq, decide_not, Bool.not_eq_true', decide_eq_false_iff_not] at h2
  simp [h2]

theorem find?_filter_ne (env : List (Str × Str)) (k k' : Str) (h : ¬ k' = k) :
    ((env.filter fun p => p.1 ≠ k).find? fun p => p.1 = k') =
      env.find? fun p => p.1 = k' := by
  induction env with
  | nil => rfl
  | cons p env ih =>
    by_cases hp : p.1 = k
    · have hq : decide (p.1 = k') = false := by
        simp only [decide_eq_false_iff_not]
        rw [hp]
        exact fun he => h he.symm
      rw [List.filter_cons_of_neg (by simp [hp])]
      rw [ih]
      conv_rhs => rw [List.find?_cons]
      rw [hq]
    · rw [List.filter_cons_of_pos (by simp [hp])]
      rw [List.find?_cons, List.find?_cons]
      cases hq : decide (p.1 = k')
      · rw [ih]
      · rfl

theorem envLookup_setEnv_eq (env : List (Str × Str)) (k v : Str) :
    envLookup (setEnv env k v) k = some v := by
  unfold envLookup setEnv
  rw [List.find?_append, find?_filter_none]
  simp [List.find?]

theorem envLookup_setEnv_ne (env : List (Str × Str)) (k v k' : Str) (h : ¬ k' = k) :
    envLookup (setEnv env k v) k' = envLookup env k' := by
  unfold envLookup setEnv
  rw [List.find?_append, find?_filter_ne env k k' h]
  cases hf : env.find? fun p => decide (p.1 = k') with
  | some p => rfl
  | none =>
    have hkk : ¬ (k = k') := fun he => h he.symm
    simp [List.find?, hkk]

theorem childEnv_token (base : List (Str × Str)) (token botId nodeEnv : Str) :
    envLookup (childEnv base token botId nodeEnv) ("DISCORD_TOKEN".toList)
      = some token := by
  unfold childEnv
  rw [envLookup_setEnv_ne _ _ _ _ (by decide), envLookup_setEnv_ne _ _ _ _ (by decide),
    envLookup_setEnv_ne _ _ _ _ (by decide), envLookup_setEnv_eq]

theorem scrubInstall_append (a b : List Effect) :
    scrubInstall (a ++ b) = scrubInstall a ++ scrubInstall b := by
  unfold scrubInstall
  exact List.map_append _ a b

theorem scrubInstall_preSpawn (inp : StartInput) (b : Bool) :
    scrubInstall (preSpawn inp b) = scrubInstall (preSpawn inp true) := by
  simp only [preSpawn, scrubInstall_append]
  rfl

theorem spawnRan_scrubInstall (es : List Effect) :
    spawnRan (scrubInstall es) = spawnRan es := by
  unfold spawnRan scrubInstall
  induction es with
  | nil => rfl
  | cons e es ih => cases e <;> simp [ih]

theorem installRan_scrubInstall (es : List Effect) :
    installRan (scrubInstall es) = installRan es := by
  unfold installRan scrubInstall
  induction es with
  | nil => rfl
  | cons e es ih => cases e <;> simp [ih]

theorem statusUpdates_append (a b : List Effect) :
    statusUpdates (a ++ b) = statusUpdates a ++ statusUpdates b := by
  unfold statusUpdates
  exact List.filterMap_append a b _

theorem statusUpdates_manifestEffects (inp : StartInput) :
    statusUpdates (manifestEffects inp) = [] := by
  unfold manifestEffects
  repeat' split <;> simp [statusUpdates]

theorem statusUpdates_preSpawn (inp : StartInput) (io : Bool) :
    statusUpdates (preSpawn inp io) = [.starting] := by
  simp only [preSpawn, statusUpdates_append, statusUpdates_manifestEffects]
  rfl

theorem statusUpdates_spawnEffects (cmd : Str) (args : List Str) (inp : StartInput) :
    statusUpdates (spawnEffects cmd args inp) = [.running] := rfl

theorem radar_veto_trace (inp : StartInput) (io : Bool)
    (hbf : inp.botFound = true) (har : inp.alreadyRunning = false)
    (htok : inp.token.isEmpty = false) (hlang : inp.language.isEmpty = false)
    (hsusp : (analyzeCode inp.files).isSuspicious = true) :
    startBot inp io = radarVeto (analyzeCode inp.files) := by
  unfold startBot
  rw [hbf, har, htok, hlang, hsusp]
  rfl

theorem isEmpty_false_of_mem {x : Str} {l : List Str} (h : x ∈ l) :
    l.isEmpty = false := by
  cases l with
  | nil => cases h
  | cons a l => rfl

theorem autoCreatePy_of_mem {files : List SrcFile} {pin : Str}
    (hmem : pin ∈ pyImportsScan files) :
    pyImports files = pyImportsScan files ∧
    autoCreatePy false files = some (joinNL (pyImports files)) := by
  have hne := isEmpty_false_of_mem hmem
  have h1 : pyImports files = pyImportsScan files := by
    unfold pyImports
    rw [hne]
    simp
  refine ⟨h1, ?_⟩
  unfold autoCreatePy
  rw [if_neg (by simp), h1, hne]
  simp

theorem autoCreateJs_of_mem {files : List SrcFile} {pin : Str}
    (hmem : pin ∈ jsDepsScan files) :
    jsDeps files = jsDepsScan files ∧
    autoCreateJs false files = some
      { name := ("discord-bot".toList), version := ("1.0.0".toList),
        main := ("index.js".toList), dependencies := jsDeps files } := by
  have hne := isEmpty_false_of_mem hmem
  have h1 : jsDeps files = jsDepsScan files := by
    unfold jsDeps
    rw [hne]
    simp
  refine ⟨h1, ?_⟩
  unfold autoCreateJs
  rw [if_neg (by simp), h1, hne]
  simp [← h1]

theorem py_marker_mem (i : Fin pyTable.length) {fname content : Str}
    (hpy : endsWithL (".py".toList) fname = true)
    {l : Str} (hl : l ∈ cleanLines content) (hc : (pyTable.get i).1 l = true) :
    (pyTable.get i).2 ∈ pyImportsScan [⟨fname, content⟩] := by
  unfold pyImportsScan
  have hfiles : pyFilesOf [(⟨fname, content⟩ : SrcFile)] = [⟨fname, content⟩] := by
    simp only [pyFilesOf, List.filter]
    rw [hpy]
  rw [hfiles]
  simp only [List.foldl_cons, List.foldl_nil]
  exact mem_linesFold_get pyTable i hl hc []

theorem js_marker_mem (i : Fin jsTable.length) {fname content : Str}
    (hjs : (endsWithL (".js".toList) fname || endsWithL (".ts".toList) fname) = true)
    (hc : (jsTable.get i).1 (lower content) = true) :
    (jsTable.get i).2 ∈ jsDepsScan [⟨fname, content⟩] := by
  unfold jsDepsScan
  have hfiles : jsFilesOf [(⟨fname, content⟩ : SrcFile)] = [⟨fname, content⟩] := by
    simp only [jsFilesOf, List.filter]
    rw [hjs]
  rw [hfiles]
  simp only [List.foldl_cons, List.foldl_nil]
  exact mem_stepTable_get jsTable (lower content) i hc []

/-! ## Claim theorems -/

/-- C1 (amended): a successful `startBot` persists `starting` and then
unconditionally persists `running` once the child is spawned — `startBot`
itself writes `running`; independently, the stdout observer persists
`running` exactly when a chunk contains one of the readiness markers. -/
theorem start_persists_running :
    (∀ inp io r, (startBot inp io).2 = .ok r → r.success = true →
      statusUpdates (startBot inp io).1 = [.starting, .running]) ∧
    (∀ out, Effect.updateBot { status := some .running } ∈ stdoutObserver out ↔
      readyMarkers.any (fun m => hasSub m out) = true) := by
  constructor
  · intro inp io r h hs
    revert h
    unfold startBot
    cases hbf : inp.botFound
    · intro h
      exact absurd h (by simp)
    · cases har : inp.alreadyRunning
      · cases htok : inp.token.isEmpty
        · cases hlang : inp.language.isEmpty
          · cases hsusp : (analyzeCode inp.files).isSuspicious
            · by_cases hpy : inp.language = ("python".toList)
              · rw [if_pos hpy]
                cases hres : resolveMain (fun n => endsWithL (".py".toList) n)
                    pyCommons
                    ("No Python files found to execute".toList)
                    ("No Python files found in workspace".toList)
                    inp.mainFile inp.files
                · intro h
                  simp [startFailure] at h
                  subst h
                  simp at hs
                · intro _
                  simp [statusUpdates_append, statusUpdates_preSpawn,
                    statusUpdates_spawnEffects]
              · by_cases hjs : inp.language = ("nodejs".toList)
                · rw [if_neg hpy, if_pos hjs]
                  cases hres : resolveMain
                      (fun n => endsWithL (".js".toList) n ||
                        endsWithL (".ts".toList) n)
                      jsCommons
                      ("No JavaScript files found to execute".toList)
                      ("No JavaScript files found in workspace".toList)
                      inp.mainFile inp.files
                  · intro h
                    simp [startFailure] at h
                    subst h
                    simp at hs
                  · intro _
                    simp [statusUpdates_append, statusUpdates_preSpawn,
                      statusUpdates_spawnEffects]
                · rw [if_neg hpy, if_neg hjs]
                  intro h
                  simp [startFailure] at h
                  subst h
                  simp at hs
            · intro h
              simp [radarVeto] at h
              subst h
              simp at hs
          · intro h
            simp [startFailure] at h
            subst h
            simp at hs
        · intro h
          simp [startFailure] at h
          subst h
          simp at hs
      · intro h
        simp at h
        subst h
        simp at hs
  · intro out
    unfold stdoutObserver
    cases hc : readyMarkers.any fun m => hasSub m out <;> simp [hc, logBotOutput]

/-- C1 witness: instantiation of the amended claim at the concrete healthy
start input. -/
theorem start_persists_running_witness :
    statusUpdates (startBot happyInput true).1 = [.starting, .running] :=
  start_persists_running.1 happyInput true
    ⟨true, ("Bot started successfully".toList)⟩ (by decide) rfl

/-- C1 counterexample: the claim as stated — a successful start leaves the
persisted status at `starting` and start itself never persists `running` —
is false: on a concrete healthy input `startBot` returns success and its
own trace ends with a persisted `running` written by `startBot`, with no
stdout observed at all. -/
theorem start_persists_running_cex :
    (startBot happyInput true).2
      = .ok ⟨true, ("Bot started successfully".toList)⟩ ∧
    Effect.updateBot (runningUpdate 42 7) ∈ (startBot happyInput true).1 ∧
    lastStatus (startBot happyInput true).1 = some .running ∧
    lastStatus (startBot happyInput true).1 ≠ some .starting := by decide

/-- C2 (amended): the engine applies no redaction — the child environment
maps `DISCORD_TOKEN` to the raw credential, and a stored `BotLogRecord`
keeps the output chunk verbatim apart from trimming, so a record contains
the credential exactly when the trimmed chunk does. -/
theorem credential_handling :
    (∀ base token botId nodeEnv,
      envLookup (childEnv base token botId nodeEnv) ("DISCORD_TOKEN".toList)
        = some token) ∧
    (∀ botId t msg, (createBotLogRecord botId t msg).message = trimL msg) ∧
    (∀ botId tok msg,
      hasSub tok ((createBotLogRecord botId .info msg).message)
        = hasSub tok (trimL msg)) :=
  ⟨childEnv_token, fun _ _ _ => rfl, fun _ _ _ => rfl⟩

/-- C2 counterexample: the claim — no stored `BotLogRecord` contains the
credential as a substring even when the child prints its environment — is
false: with credential `cexToken`, the spawned child environment carries
the credential under `DISCORD_TOKEN`, and the record stored for an
environment-echoing child contains the credential. -/
theorem credential_leak_cex :
    envLookup (childEnv [(("PATH".toList), ("/usr/bin".toList))] cexToken
        ("b1".toList) ("production".toList)) ("DISCORD_TOKEN".toList)
      = some cexToken ∧
    hasSub cexToken ((createBotLogRecord ("b1".toList) .info cexEnvDump).message)
      = true := by decide

/-- C3 (amended): the RADAR verdict is suspicious exactly when the risk
score exceeds 20, and a suspicious verdict aborts the start with status
`error` and a failure result; `hello world` scores 0 and is not vetoed;
but a file with two mining keywords scores at most 20 (exactly 20 when the
keywords match two distinct pattern groups) and is therefore NOT vetoed —
the veto needs the score to strictly exceed 20. -/
theorem radar_threshold_and_veto :
    (∀ files, (analyzeCode files).isSuspicious
      = decide ((analyzeCode files).riskScore > 20)) ∧
    (∀ inp io, inp.botFound = true → inp.alreadyRunning = false →
      inp.token.isEmpty = false → inp.language.isEmpty = false →
      (analyzeCode inp.files).isSuspicious = true →
      statusUpdates (startBot inp io).1 = [.starting, .error] ∧
      (startBot inp io).2 = .ok ⟨false,
        ("Bot blocked by RADAR system. Suspicious activity detected: ".toList) ++
          (analyzeCode inp.files).reasons.headD []⟩) ∧
    ((analyzeCode [helloFile]).riskScore = 0 ∧
      (analyzeCode [helloFile]).isSuspicious = false) ∧
    ((analyzeCode [twoMiningFile]).riskScore = 20 ∧
      (analyzeCode [twoMiningFile]).isSuspicious = false) := by
  refine ⟨fun files => rfl, ?_, by decide, by decide⟩
  intro inp io h1 h2 h3 h4 h5
  rw [radar_veto_trace inp io h1 h2 h3 h4 h5]
  exact ⟨rfl, rfl⟩

/-- C3 witness: the veto branch of the amended claim at the concrete
three-pattern input. -/
theorem radar_threshold_and_veto_witness :
    statusUpdates (startBot vetoInput true).1 = [.starting, .error] ∧
    (startBot vetoInput true).2 = .ok ⟨false,
      ("Bot blocked by RADAR system. Suspicious activity detected: ".toList) ++
        (analyzeCode vetoInput.files).reasons.headD []⟩ :=
  radar_threshold_and_veto.2.1 vetoInput true rfl rfl rfl rfl (by decide)

/-- C3 counterexample: the claim — a source file containing two mining
keywords produces a risk score of at least 20 and vetoes start — is false:
`mining hashrate` scores exactly 20, which does not exceed 20, so the
verdict is not suspicious and the start succeeds and spawns; `bitcoin
miner` (two keywords of one pattern group) even scores only 10. -/
theorem radar_two_mining_cex :
    (analyzeCode [twoMiningFile]).riskScore = 20 ∧
    (analyzeCode [twoMiningFile]).isSuspicious = false ∧
    (analyzeCode [twoMiningSameFile]).riskScore = 10 ∧
    (startBot twoMiningInput true).2
      = .ok ⟨true, ("Bot started successfully".toList)⟩ ∧
    spawnRan (startBot twoMiningInput true).1 = true := by decide

/-- C4 (amended): when the child ignores the graceful signal, `stopBot`
sends `SIGTERM`, waits the 5-second timeout, sends `SIGKILL`, removes the
handle, persists `stopped`, removes the workspace and returns success to
the caller; but the exit observer of the killed child (exit code null)
then persists `error`, so the final persisted status of the composite
trace is `error`, not `stopped`. -/
theorem stop_escalation :
    (stopBot true).2 = ⟨true, ("Bot stopped successfully".toList)⟩ ∧
    (stopBot true).1.take 3
      = [.kill ("SIGTERM".toList), .waitUpTo 5000, .kill ("SIGKILL".toList)] ∧
    Effect.deleteHandle ∈ (stopBot true).1 ∧
    Effect.removeWorkspace ∈ (stopBot true).1 ∧
    statusUpdates stopEscalationTrace = [.stopped, .error] ∧
    lastStatus stopEscalationTrace = some .error := by decide

/-- C4 counterexample: the claim — the final persisted status after an
escalated stop is `stopped` — is false on the composite trace: `stopBot`
returns success and escalates, but the last persisted status is `error`. -/
theorem stop_escalation_cex :
    (stopBot true).2.success = true ∧
    Effect.kill ("SIGKILL".toList) ∈ (stopBot true).1 ∧
    lastStatus stopEscalationTrace ≠ some .stopped ∧
    lastStatus stopEscalationTrace = some .error := by decide

/-- C5 (confirmed): the exit observer first removes the Process Handle,
then persists exactly one status write — `stopped` for exit code 0, `error`
for any other exit code (or a signal) — and that single write clears the
pid and resets the memory and CPU fields. -/
theorem exit_observer_contract (code : Option Int) :
    (exitObserver code).head? = some .deleteHandle ∧
    statusUpdates (exitObserver code)
      = [if code = some 0 then .stopped else .error] ∧
    ∀ u, Effect.updateBot u ∈ exitObserver code →
      u.processId = some none ∧ u.memoryUsage = some ("0MB".toList) ∧
      u.cpuUsage = some ("0%".toList) := by
  refine ⟨rfl, rfl, ?_⟩
  intro u hm
  simp [exitObserver, logBotOutput] at hm
  subst hm
  exact ⟨rfl, rfl, rfl⟩

/-- C5 witness: the cleanup fields of the single status write of the exit
observer at exit code 0. -/
theorem exit_observer_contract_witness :
    (clearedUpdate .stopped).processId = some none ∧
    (clearedUpdate .stopped).memoryUsage = some ("0MB".toList) ∧
    (clearedUpdate .stopped).cpuUsage = some ("0%".toList) :=
  (exit_observer_contract (some 0)).2.2 (clearedUpdate .stopped) (by decide)

/-- C6 (amended): for every credential containing neither `.` nor `$`,
each placeholder form taken in isolation — the bare, single-quoted and
double-quoted placeholder and every environment-lookup idiom — is
materialized to exactly the double-quoted credential, both at the level of
`substituteContent` and of `createBotWorkspace`; a concrete source holding
all four §8.4 form families materializes with every occurrence replaced.
(The unrestricted claim fails when the credential itself contains a
replaced idiom: the later passes re-substitute inside the inserted
credential, see the counterexample.) -/
theorem substitution_four_forms (tok : Str) (hdot : '.' ∉ tok) (_hdol : '$' ∉ tok) :
    (∀ f ∈ allAlts, substituteContent tok f = quoteTok tok) ∧
    (∀ fname f, f ∈ allAlts →
      createBotWorkspace [⟨fname, f⟩] tok = some [⟨fname, quoteTok tok⟩]) ∧
    substituteContent ("tok123".toList) multiFormContent = multiFormExpected := by
  have hforms : ∀ f ∈ allAlts, substituteContent tok f = quoteTok tok := by
    intro f hf
    fin_cases hf
    · exact substituteContent_hits_pass1 tok _ _ (by decide) hdot
    · exact substituteContent_hits_pass1 tok _ _ (by decide) hdot
    · exact substituteContent_hits_pass1 tok _ _ (by decide) hdot
    · exact substituteContent_hits_pass2 tok _ _ (by decide) (by decide) hdot
    · exact substituteContent_hits_pass2 tok _ _ (by decide) (by decide) hdot
    · exact substituteContent_hits_pass2 tok _ _ (by decide) (by decide) hdot
    · exact substituteContent_hits_pass3 tok _ _ (by decide) (by decide) (by decide) hdot
    · exact substituteContent_hits_pass3 tok _ _ (by decide) (by decide) (by decide) hdot
    · exact substituteContent_hits_pass3 tok _ _ (by decide) (by decide) (by decide) hdot
    · exact substituteContent_hits_pass3 tok _ _ (by decide) (by decide) (by decide) hdot
    · exact substituteContent_hits_pass3 tok _ _ (by decide) (by decide) (by decide) hdot
    · exact substituteContent_hits_pass3 tok _ _ (by decide) (by decide) (by decide) hdot
    · exact substituteContent_hits_pass3 tok _ _ (by decide) (by decide) (by decide) hdot
    · exact substituteContent_hits_pass3 tok _ _ (by decide) (by decide) (by decide) hdot
    · exact substituteContent_hits_pass4 tok _ _ (by decide) (by decide) (by decide) (by decide)
    · exact substituteContent_hits_pass4 tok _ _ (by decide) (by decide) (by decide) (by decide)
    · exact substituteContent_hits_pass4 tok _ _ (by decide) (by decide) (by decide) (by decide)
    · exact substituteContent_hits_pass4 tok _ _ (by decide) (by decide) (by decide) (by decide)
  refine ⟨hforms, ?_, by decide⟩
  intro fname f hf
  unfold createBotWorkspace
  rw [List.map_cons, List.map_nil, hforms f hf]

/-- C6 witness: the amended claim instantiated at the dot-free credential
`TOKA` and the bare placeholder form. -/
theorem substitution_four_forms_witness :
    substituteContent ("TOKA".toList) ("YOUR_BOT_TOKEN".toList)
      = quoteTok ("TOKA".toList) ∧
    substituteContent ("tok123".toList) multiFormContent = multiFormExpected := by
  have h := substitution_four_forms ("TOKA".toList) (by decide) (by decide)
  exact ⟨h.1 _ (by decide), h.2.2⟩

/-- C6 counterexample: the claim — every occurrence of every placeholder
form is replaced with the double-quoted credential, for every content and
credential — fails when the credential is itself a replaced idiom: with
credential `process.env.TOKEN`, the placeholder file materializes to a
re-substituted string that differs from the simultaneous substitution of
the spec and still contains the idiom `process.env.TOKEN` on disk. -/
theorem substitution_cex :
    substituteContent ("process.env.TOKEN".toList) ("YOUR_BOT_TOKEN".toList)
      ≠ substituteSpec ("process.env.TOKEN".toList) ("YOUR_BOT_TOKEN".toList) ∧
    hasSub ("process.env.TOKEN".toList)
      (substituteContent ("process.env.TOKEN".toList) ("YOUR_BOT_TOKEN".toList))
      = true ∧
    substituteSpec ("process.env.TOKEN".toList) ("YOUR_BOT_TOKEN".toList)
      = quoteTok ("process.env.TOKEN".toList) := by decide

/-- C7 (confirmed): dependency inference runs only when the manifest is
absent; for each §4.2 marker, a single runtime file containing that marker
yields a manifest containing the corresponding pin; a source with no
markers but a runtime file yields the baseline chat-library pin; a source
with no runtime files yields no manifest — for both runtimes. -/
theorem dependency_inference :
    (∀ files, autoCreatePy true files = none) ∧
    (∀ files, autoCreateJs true files = none) ∧
    (∀ mp, mp ∈ pyMarkerPins → ∀ fname content,
      endsWithL (".py".toList) fname = true →
      (∃ l, l ∈ cleanLines content ∧ hasSub mp.1 l = true) →
      mp.2 ∈ pyImports [⟨fname, content⟩] ∧
      autoCreatePy false [⟨fname, content⟩]
        = some (joinNL (pyImports [⟨fname, content⟩]))) ∧
    (∀ mp, mp ∈ jsMarkerPins → ∀ fname content,
      (endsWithL (".js".toList) fname || endsWithL (".ts".toList) fname) = true →
      hasSub mp.1 (lower content) = true →
      ∃ p, autoCreateJs false [⟨fname, content⟩] = some p ∧
        mp.2 ∈ p.dependencies) ∧
    (∀ files, pyImportsScan files = [] → (pyFilesOf files).isEmpty = false →
      autoCreatePy false files = some ("discord.py>=2.3.0".toList)) ∧
    (∀ files, jsDepsScan files = [] → (jsFilesOf files).isEmpty = false →
      autoCreateJs false files = some
        { name := ("discord-bot".toList), version := ("1.0.0".toList),
          main := ("index.js".toList),
          dependencies := [depPair ("discord.js".toList) ("^14.14.1".toList)] }) ∧
    (∀ files, pyFilesOf files = [] → autoCreatePy false files = none) ∧
    (∀ files, jsFilesOf files = [] → autoCreateJs false files = none) := by
  refine ⟨fun _ => rfl, fun _ => rfl, ?_, ?_, ?_, ?_, ?_, ?_⟩
  · intro mp hmp
    fin_cases hmp <;>
      (intro fname content hpy hex
       obtain ⟨l, hl, hs⟩ := hex) <;>
      [ (have hc : (pyTable.get ⟨0, by decide⟩).1 l = true := by
          show (hasSub ("discord.py".toList) l || hasSub ("import discord".toList) l ||
            hasSub ("from discord".toList) l) = true
          simp at hs
          simp [hs]
         have hmem := py_marker_mem ⟨0, by decide⟩ hpy hl hc
         have hpack := autoCreatePy_of_mem hmem
         exact ⟨by rw [hpack.1]; exact hmem, hpack.2⟩);
        (have hc : (pyTable.get ⟨0, by decide⟩).1 l = true := by
          show (hasSub ("discord.py".toList) l || hasSub ("import discord".toList) l ||
            hasSub ("from discord".toList) l) = true
          simp at hs
          simp [hs]
         have hmem := py_marker_mem ⟨0, by decide⟩ hpy hl hc
         have hpack := autoCreatePy_of_mem hmem
         exact ⟨by rw [hpack.1]; exact hmem, hpack.2⟩);
        (have hc : (pyTable.get ⟨0, by decide⟩).1 l = true := by
          show (hasSub ("discord.py".toList) l || hasSub ("import discord".toList) l ||
            hasSub ("from discord".toList) l) = true
          simp at hs
          simp [hs]
         have hmem := py_marker_mem ⟨0, by decide⟩ hpy hl hc
         have hpack := autoCreatePy_of_mem hmem
         exact ⟨by rw [hpack.1]; exact hmem, hpack.2⟩);
        (have hc : (pyTable.get ⟨1, by decide⟩).1 l = true := by
          show (hasSub ("aiohttp".toList) l || hasSub ("import aiohttp".toList) l) = true
          simp at hs
          simp [hs]
         have hmem := py_marker_mem ⟨1, by decide⟩ hpy hl hc
         have hpack := autoCreatePy_of_mem hmem
         exact ⟨by rw [hpack.1]; exact hmem, hpack.2⟩);
        (have hc : (pyTable.get ⟨2, by decide⟩).1 l = true := by
          show (hasSub ("requests".toList) l || hasSub ("import requests".toList) l) = true
          simp at hs
          simp [hs]
         have hmem := py_marker_mem ⟨2, by decide⟩ hpy hl hc
         have hpack := autoCreatePy_of_mem hmem
         exact ⟨by rw [hpack.1]; exact hmem, hpack.2⟩);
        (have hc : (pyTable.get ⟨8, by decide⟩).1 l = true := by
          show (hasSub ("dotenv".toList) l || hasSub ("python-dotenv".toList) l) = true
          simp at hs
          simp [hs]
         have hmem := py_marker_mem ⟨8, by decide⟩ hpy hl hc
         have hpack := autoCreatePy_of_mem hmem
         exact ⟨by rw [hpack.1]; exact hmem, hpack.2⟩);
        (have hc : (pyTable.get ⟨8, by decide⟩).1 l = true := by
          show (hasSub ("dotenv".toList) l || hasSub ("python-dotenv".toList) l) = true
          simp at hs
          simp [hs]
         have hmem := py_marker_mem ⟨8, by decide⟩ hpy hl hc
         have hpack := autoCreatePy_of_mem hmem
         exact ⟨by rw [hpack.1]; exact hmem, hpack.2⟩);
        (have hc : (pyTable.get ⟨6, by decide⟩).1 l = true := by
          show (hasSub ("mysql".toList) l || hasSub ("pymysql".toList) l) = true
          simp at hs
          simp [hs]
         have hmem := py_marker_mem ⟨6, by decide⟩ hpy hl hc
         have hpack := autoCreatePy_of_mem hmem
         exact ⟨by rw [hpack.1]; exact hmem, hpack.2⟩);
        (have hc : (pyTable.get ⟨6, by decide⟩).1 l = true := by
          show (hasSub ("mysql".toList) l || hasSub ("pymysql".toList) l) = true
          simp at hs
          simp [hs]
         have hmem := py_marker_mem ⟨6, by decide⟩ hpy hl hc
         have hpack := autoCreatePy_of_mem hmem
         exact ⟨by rw [hpack.1]; exact hmem, hpack.2⟩);
        (have hc : (pyTable.get ⟨7, by decide⟩).1 l = true := by
          show (hasSub ("postgres".toList) l || hasSub ("psycopg".toList) l) = true
          simp at hs
          simp [hs]
         have hmem := py_marker_mem ⟨7, by decide⟩ hpy hl hc
         have hpack := autoCreatePy_of_mem hmem
         exact ⟨by rw [hpack.1]; exact hmem, hpack.2⟩);
        (have hc : (pyTable.get ⟨7, by decide⟩).1 l = true := by
          show (hasSub ("postgres".toList) l || hasSub ("psycopg".toList) l) = true
          simp at hs
          simp [hs]
         have hmem := py_marker_mem ⟨7, by decide⟩ hpy hl hc
         have hpack := autoCreatePy_of_mem hmem
         exact ⟨by rw [hpack.1]; exact hmem, hpack.2⟩)]
  · intro mp hmp
    fin_cases hmp <;> intro fname content hjs hs
    · have hc : (jsTable.get ⟨0, by decide⟩).1 (lower content) = true := by
        show (hasSub ("discord.js".toList) (lower content) ||
          hasSub (("require(".toList) ++ sq :: ("discord".toList)) (lower content) ||
          (hasSub ("import".toList) (lower content) &&
            hasSub ("discord".toList) (lower content))) = true
        simp at hs
        simp [hs]
      have hmem := js_marker_mem ⟨0, by decide⟩ hjs hc
      have hpack := autoCreateJs_of_mem hmem
      exact ⟨_, hpack.2, by rw [hpack.1]; exact hmem⟩
    · have hc : (jsTable.get ⟨1, by decide⟩).1 (lower content) = true := by
        show (hasSub ("@discordjs/builders".toList) (lower content) ||
          hasSub ("slashcommandbuilder".toList) (lower content)) = true
        simp at hs
        simp [hs]
      have hmem := js_marker_mem ⟨1, by decide⟩ hjs hc
      have hpack := autoCreateJs_of_mem hmem
      exact ⟨_, hpack.2, by rw [hpack.1]; exact hmem⟩
    · have hc : (jsTable.get ⟨1, by decide⟩).1 (lower content) = true := by
        show (hasSub ("@discordjs/builders".toList) (lower content) ||
          hasSub ("slashcommandbuilder".toList) (lower content)) = true
        simp at hs
        simp [hs]
      have hmem := js_marker_mem ⟨1, by decide⟩ hjs hc
      have hpack := autoCreateJs_of_mem hmem
      exact ⟨_, hpack.2, by rw [hpack.1]; exact hmem⟩
    · have hc : (jsTable.get ⟨2, by decide⟩).1 (lower content) = true := by
        show (hasSub ("@discordjs/rest".toList) (lower content) ||
          hasSub ("rest".toList) (lower content)) = true
        simp at hs
        simp [hs]
      have hmem := js_marker_mem ⟨2, by decide⟩ hjs hc
      have hpack := autoCreateJs_of_mem hmem
      exact ⟨_, hpack.2, by rw [hpack.1]; exact hmem⟩
    · have hc : (jsTable.get ⟨3, by decide⟩).1 (lower content) = true := by
        show hasSub ("@discordjs/voice".toList) (lower content) = true
        simp at hs
        simp [hs]
      have hmem := js_marker_mem ⟨3, by decide⟩ hjs hc
      have hpack := autoCreateJs_of_mem hmem
      exact ⟨_, hpack.2, by rw [hpack.1]; exact hmem⟩
    · have hc : (jsTable.get ⟨4, by decide⟩).1 (lower content) = true := by
        show (hasSub ("dotenv".toList) (lower content) ||
          hasSub ("process.env".toList) (lower content)) = true
        simp at hs
        simp [hs]
      have hmem := js_marker_mem ⟨4, by decide⟩ hjs hc
      have hpack := autoCreateJs_of_mem hmem
      exact ⟨_, hpack.2, by rw [hpack.1]; exact hmem⟩
    · have hc : (jsTable.get ⟨5, by decide⟩).1 (lower content) = true := by
        show (hasSub ("axios".toList) (lower content) ||
          hasSub ("http request".toList) (lower content)) = true
        simp at hs
        simp [hs]
      have hmem := js_marker_mem ⟨5, by decide⟩ hjs hc
      have hpack := autoCreateJs_of_mem hmem
      exact ⟨_, hpack.2, by rw [hpack.1]; exact hmem⟩
    · have hc : (jsTable.get ⟨6, by decide⟩).1 (lower content) = true := by
        show hasSub ("fs-extra".toList) (lower content) = true
        simp at hs
        simp [hs]
      have hmem := js_marker_mem ⟨6, by decide⟩ hjs hc
      have hpack := autoCreateJs_of_mem hmem
      exact ⟨_, hpack.2, by rw [hpack.1]; exact hmem⟩
    · have hc : (jsTable.get ⟨7, by decide⟩).1 (lower content) = true := by
        show (hasSub ("moment".toList) (lower content) ||
          hasSub ("date".toList) (lower content)) = true
        simp at hs
        simp [hs]
      have hmem := js_marker_mem ⟨7, by decide⟩ hjs hc
      have hpack := autoCreateJs_of_mem hmem
      exact ⟨_, hpack.2, by rw [hpack.1]; exact hmem⟩
    · have hc : (jsTable.get ⟨8, by decide⟩).1 (lower content) = true := by
        show (hasSub ("lodash".toList) (lower content) ||
          hasSub ("_".toList) (lower content)) = true
        simp at hs
        simp [hs]
      have hmem := js_marker_mem ⟨8, by decide⟩ hjs hc
      have hpack := autoCreateJs_of_mem hmem
      exact ⟨_, hpack.2, by rw [hpack.1]; exact hmem⟩
    · have hc : (jsTable.get ⟨9, by decide⟩).1 (lower content) = true := by
        show hasSub ("sqlite3".toList) (lower content) = true
        simp at hs
        simp [hs]
      have hmem := js_marker_mem ⟨9, by decide⟩ hjs hc
      have hpack := autoCreateJs_of_mem hmem
      exact ⟨_, hpack.2, by rw [hpack.1]; exact hmem⟩
    · have hc : (jsTable.get ⟨10, by decide⟩).1 (lower content) = true := by
        show hasSub ("mysql".toList) (lower content) = true
        simp at hs
        simp [hs]
      have hmem := js_marker_mem ⟨10, by decide⟩ hjs hc
      have hpack := autoCreateJs_of_mem hmem
      exact ⟨_, hpack.2, by rw [hpack.1]; exact hmem⟩
    · have hc : (jsTable.get ⟨11, by decide⟩).1 (lower content) = true := by
        show (hasSub ("mongoose".toList) (lower content) ||
          hasSub ("mongodb".toList) (lower content)) = true
        simp at hs
        simp [hs]
      have hmem := js_marker_mem ⟨11, by decide⟩ hjs hc
      have hpack := autoCreateJs_of_mem hmem
      exact ⟨_, hpack.2, by rw [hpack.1]; exact hmem⟩
    · have hc : (jsTable.get ⟨11, by decide⟩).1 (lower content) = true := by
        show (hasSub ("mongoose".toList) (lower content) ||
          hasSub ("mongodb".toList) (lower content)) = true
        simp at hs
        simp [hs]
      have hmem := js_marker_mem ⟨11, by decide⟩ hjs hc
      have hpack := autoCreateJs_of_mem hmem
      exact ⟨_, hpack.2, by rw [hpack.1]; exact hmem⟩
  · intro files hscan hne
    have h1 : pyImports files = [("discord.py>=2.3.0".toList)] := by
      unfold pyImports
      rw [hscan, hne]
      rfl
    unfold autoCreatePy
    rw [h1]
    rfl
  · intro files hscan hne
    have h1 : jsDeps files = [depPair ("discord.js".toList) ("^14.14.1".toList)] := by
      unfold jsDeps
      rw [hscan, hne]
      rfl
    unfold autoCreateJs
    rw [h1]
    rfl
  · intro files hnof
    have hscan : pyImportsScan files = [] := by
      unfold pyImportsScan
      rw [hnof]
      rfl
    have h1 : pyImports files = [] := by
      unfold pyImports
      rw [hscan, hnof]
      rfl
    unfold autoCreatePy
    rw [h1]
    rfl
  · intro files hnof
    have hscan : jsDepsScan files = [] := by
      unfold jsDepsScan
      rw [hnof]
      rfl
    have h1 : jsDeps files = [] := by
      unfold jsDeps
      rw [hscan, hnof]
      rfl
    unfold autoCreateJs
    rw [h1]
    rfl

/-- C7 witness: the contract instantiated at concrete fixtures — the
`aiohttp` marker for Runtime A, the `moment` marker for Runtime B, and
gating at an empty upload. -/
theorem dependency_inference_witness :
    (("aiohttp>=3.8.0".toList) ∈
      pyImports [⟨("main.py".toList), ("import aiohttp".toList)⟩] ∧
     autoCreatePy false [⟨("main.py".toList), ("import aiohttp".toList)⟩]
       = some (joinNL (pyImports [⟨("main.py".toList), ("import aiohttp".toList)⟩]))) ∧
    (∃ p, autoCreateJs false [⟨("bot.js".toList), ("moment".toList)⟩] = some p ∧
      depPair ("moment".toList) ("^2.29.4".toList) ∈ p.dependencies) ∧
    autoCreatePy true [⟨("main.py".toList), ("import aiohttp".toList)⟩] = none := by
  refine ⟨?_, ?_, ?_⟩
  · exact dependency_inference.2.2.1 (("aiohttp".toList), ("aiohttp>=3.8.0".toList))
      (by decide) ("main.py".toList) ("import aiohttp".toList) (by decide) (by decide)
  · exact dependency_inference.2.2.2.1 (("moment".toList),
      depPair ("moment".toList) ("^2.29.4".toList)) (by decide)
      ("bot.js".toList) ("moment".toList) (by decide) (by decide)
  · exact dependency_inference.1 _

/-- C8 (amended): workspace materialization performs no emptiness
validation and raises no error of its own: for every upload it writes
exactly the uploaded files with the substitution passes applied, and a bot
with zero files silently yields an empty workspace. -/
theorem workspace_no_validation :
    (∀ files tok, createBotWorkspace files tok
      = some (files.map fun f => ⟨f.filename, substituteContent tok f.content⟩)) ∧
    createBotWorkspace [] ("tok".toList) = some [] :=
  ⟨fun _ _ => rfl, rfl⟩

/-- C8 counterexample: the claim — materialization fails with a
`WorkspaceError` when the bot has zero files — is false: on zero files the
function completes normally and produces an empty workspace. -/
theorem workspace_zero_files_cex :
    createBotWorkspace [] ("tok".toList) ≠ none ∧
    createBotWorkspace [] ("tok".toList) = some [] := by decide

/-- C9 (confirmed): the installer outcome is recorded in the trace but
never influences the result returned by `startBot`, the rest of the
trace, whether the child is spawned, or whether the installer ran: the
traces for a failed and a successful installation agree up to the recorded
installer outcome. -/
theorem installer_failure_nonfatal (inp : StartInput) (b : Bool) :
    (startBot inp b).2 = (startBot inp true).2 ∧
    scrubInstall (startBot inp b).1 = scrubInstall (startBot inp true).1 ∧
    spawnRan (startBot inp b).1 = spawnRan (startBot inp true).1 ∧
    installRan (startBot inp b).1 = installRan (startBot inp true).1 := by
  have hcore : (startBot inp b).2 = (startBot inp true).2 ∧
      scrubInstall (startBot inp b).1 = scrubInstall (startBot inp true).1 := by
    unfold startBot
    cases hbf : inp.botFound
    · exact ⟨rfl, rfl⟩
    · cases har : inp.alreadyRunning
      · cases htok : inp.token.isEmpty
        · cases hlang : inp.language.isEmpty
          · cases hsusp : (analyzeCode inp.files).isSuspicious
            · by_cases hpy : inp.language = ("python".toList)
              · rw [if_pos hpy, if_pos hpy]
                cases hres : resolveMain (fun n => endsWithL (".py".toList) n)
                    pyCommons
                    ("No Python files found to execute".toList)
                    ("No Python files found in workspace".toList)
                    inp.mainFile inp.files <;>
                  exact ⟨rfl, by simp [startFailure, scrubInstall_append,
                    scrubInstall_preSpawn inp b]⟩
              · by_cases hjs : inp.language = ("nodejs".toList)
                · rw [if_neg hpy, if_neg hpy, if_pos hjs, if_pos hjs]
                  cases hres : resolveMain
                      (fun n => endsWithL (".js".toList) n ||
                        endsWithL (".ts".toList) n)
                      jsCommons
                      ("No JavaScript files found to execute".toList)
                      ("No JavaScript files found in workspace".toList)
                      inp.mainFile inp.files <;>
                    exact ⟨rfl, by simp [startFailure, scrubInstall_append,
                      scrubInstall_preSpawn inp b]⟩
                · rw [if_neg hpy, if_neg hpy, if_neg hjs, if_neg hjs]
                  exact ⟨rfl, by simp [startFailure, scrubInstall_append,
                    scrubInstall_preSpawn inp b]⟩
            · exact ⟨rfl, rfl⟩
          · exact ⟨rfl, rfl⟩
        · exact ⟨rfl, rfl⟩
      · exact ⟨rfl, rfl⟩
  refine ⟨hcore.1, hcore.2, ?_, ?_⟩
  · rw [← spawnRan_scrubInstall, hcore.2, spawnRan_scrubInstall]
  · rw [← installRan_scrubInstall, hcore.2, installRan_scrubInstall]

/-- C10 (confirmed): RADAR keyword matching is raw substring matching with
one +10 per pattern group per file: the benign words
`method difficulty history` hit three groups (`eth` in `method`,
`difficulty`, `tor` in `history`), score 30, are judged suspicious and
veto the start attempt, while five keywords of one mining group add only
one +10, and the single word `method` already scores 10. -/
theorem radar_substring_scoring :
    (analyzeCode [benignWordsFile]).riskScore = 30 ∧
    (analyzeCode [benignWordsFile]).isSuspicious = true ∧
    statusUpdates (startBot vetoInput true).1 = [.starting, .error] ∧
    (startBot vetoInput true).2 = .ok ⟨false,
      ("Bot blocked by RADAR system. Suspicious activity detected: Suspicious pattern detected in notes.py: mining".toList)⟩ ∧
    (analyzeCode [⟨("m.py".toList),
      ("mining miner bitcoin crypto eth".toList)⟩]).riskScore = 10 ∧
    (analyzeCode [⟨("w.py".toList), ("method".toList)⟩]).riskScore = 10 := by
  decide

end Delta
